import Mathlib

/-!
Verification of the `DataAnalyzer` module of `dbldatagen`
(`src/dbldatagen/data_analyzer.py`) against its natural-language
specification.

The Python source is shallowly embedded below.  PySpark values and
operations that the module relies on (data types, dataframes,
`selectExpr`/`limit`/`union` evaluation, `describe`) are modelled
explicitly; Python runtime failures (`assert`, `TypeError`) are modelled
with `Except PyErr`.  Numeric statistics are computed with exact rational
arithmetic; Spark's non-ANSI `/` (the `Divide` expression, evaluated
through `DivModLike`) returns SQL NULL whenever the divisor is zero, for
double and decimal operands alike, and the model follows that.
-/

set_option autoImplicit false
set_option linter.unusedVariables false

namespace DbldatagenModel

/-- Python-level failures that the embedded code can raise.
`invalidMeasureError` is modelled from the spec: the spec's error taxonomy
(§7) names `InvalidMeasureError`, but the source never defines or raises
such an error; the constructor exists only so that statements can compare
the spec's taxonomy with the code's actual behaviour. -/
inductive PyErr where
  | assertionError
  | typeError
  | analysisException
  | invalidMeasureError
deriving DecidableEq

/-- The `pyspark.sql.types` data types imported by the module
(`data_analyzer.py`, line 10).  `DecimalType` carries precision and scale. -/
inductive SqlType where
  | StringType
  | LongType
  | IntegerType
  | FloatType
  | DoubleType
  | BooleanType
  | ShortType
  | ByteType
  | BinaryType
  | TimestampType
  | DateType
  | DecimalType (p s : Nat)
deriving DecidableEq

namespace SqlType

/-- `DataType.simpleString()` of pyspark: the short SQL type tag, as it
appears in `df.dtypes` and in `fld.dataType.simpleString()` (line 314). -/
def simpleString : SqlType → String
  | StringType => "string"
  | LongType => "bigint"
  | IntegerType => "int"
  | FloatType => "float"
  | DoubleType => "double"
  | BooleanType => "boolean"
  | ShortType => "smallint"
  | ByteType => "tinyint"
  | BinaryType => "binary"
  | TimestampType => "timestamp"
  | DateType => "date"
  | DecimalType p s => "decimal(" ++ toString p ++ "," ++ toString s ++ ")"

/-- `str(field.dataType)` of pyspark (the class-style name, as used by the
keys of `_lookupFieldType`'s `type_mappings` table, lines 61-67). -/
def pyTypeName : SqlType → String
  | StringType => "StringType"
  | LongType => "LongType"
  | IntegerType => "IntegerType"
  | FloatType => "FloatType"
  | DoubleType => "DoubleType"
  | BooleanType => "BooleanType"
  | ShortType => "ShortType"
  | ByteType => "ByteType"
  | BinaryType => "BinaryType"
  | TimestampType => "TimestampType"
  | DateType => "DateType"
  | DecimalType p s => "DecimalType(" ++ toString p ++ "," ++ toString s ++ ")"

/-- Numeric types, i.e. the columns covered by the engine's
descriptive-statistics primitive in our model of `describe`. -/
def isNumericType : SqlType → Bool
  | LongType => true
  | IntegerType => true
  | FloatType => true
  | DoubleType => true
  | ShortType => true
  | ByteType => true
  | DecimalType _ _ => true
  | _ => false

end SqlType

/-- A schema field: `pyspark.sql.types.StructField` (name and data type;
nullability is irrelevant to the analyzed code and omitted). -/
structure StructField where
  name : String
  dataType : SqlType
deriving DecidableEq

/-- `pyspark.sql.types.StructType`: an ordered sequence of fields. -/
structure StructType where
  fields : List StructField
deriving DecidableEq

/-- A dynamically-typed argument to `_generatorDefaultAttributesFromType`:
the Python parameter may be anything; the claims only need `DataType`
instances and plain strings. -/
inductive PyValue where
  | dataType (t : SqlType)
  | pyStr (s : String)
deriving DecidableEq

/-- The branch chain of `_generatorDefaultAttributesFromType`
(lines 258-266), reached once the `isinstance` assertion has passed. -/
def generatorDefaultAttributesChain (sqlType : SqlType) : String :=
  if sqlType = SqlType.StringType then
    "template=r'\\\\w'"
  else if sqlType = SqlType.IntegerType ∨ sqlType = SqlType.LongType then
    "minValue=1, maxValue=1000000"
  else if sqlType = SqlType.FloatType ∨ sqlType = SqlType.DoubleType then
    "minValue=1.0, maxValue=1000000.0, step=0.1"
  else
    "expr='null'"

/-- `DataAnalyzer._generatorDefaultAttributesFromType` (lines 244-266):
`assert isinstance(sqlType, DataType)` followed by the if/elif chain.  A
non-`DataType` argument (e.g. a string) fails the assertion. -/
def _generatorDefaultAttributesFromType (sqlType : PyValue) : Except PyErr String :=
  match sqlType with
  | PyValue.dataType t => Except.ok (generatorDefaultAttributesChain t)
  | PyValue.pyStr _ => Except.error PyErr.assertionError

/-- `DataAnalyzer.DEFAULT_GENERATED_NAME` (line 30). -/
def DEFAULT_GENERATED_NAME : String := "synthetic_data"

/-- `DataAnalyzer.GENERATED_COMMENT` (lines 32-39).  Modelled from the spec:
`strip_margins` lives in `utils.py`, which is not part of the analyzed
sources; per the spec this is a fixed header/comment block, so the constant
is the margin-stripped text. -/
def GENERATED_COMMENT : String :=
  String.intercalate "\n"
    ["",
     "# Code snippet generated with Databricks Labs Data Generator (`dbldatagen`) DataAnalyzer class",
     "# Install with `pip install dbldatagen` or in notebook with `%pip install dbldatagen`",
     "# See the following resources for more details:",
     "#",
     "#   Getting Started - [https://databrickslabs.github.io/dbldatagen/public_docs/APIDOCS.html]",
     "#   Github project - [https://github.com/databrickslabs/dbldatagen]",
     "#"]

/-- `DataAnalyzer.GENERATED_FROM_SCHEMA_COMMENT` (lines 41-43).  Modelled
from the spec, as for `GENERATED_COMMENT`. -/
def GENERATED_FROM_SCHEMA_COMMENT : String :=
  String.intercalate "\n"
    ["",
     "# Column definitions are stubs only - modify to generate correct data  ",
     "#"]

/-- The opening builder statement of the generated code (lines 302-309),
parameterized by the generator name.  Modelled from the spec for the
`strip_margins` formatting, faithful to the interpolated f-string. -/
def generationSpecHeader (name : String) : String :=
  String.intercalate "\n"
    ["generation_spec = (",
     "    dg.DataGenerator(sparkSession=spark, ",
     "                     name='" ++ name ++ "', ",
     "                     rows=100000,",
     "                     random=True,",
     "                     )"]

/-- One generated `.withColumn` line (line 318): indent followed by
`.withColumn('<name>', '<simpleString>', <attributes>)`.  The attribute
string always comes from a genuine `DataType`, so the `isinstance`
assertion inside `_generatorDefaultAttributesFromType` cannot fire and the
chain value is used directly. -/
def withColumnLine (fld : StructField) : String :=
  "    " ++ ".withColumn('" ++ fld.name ++ "', '" ++ fld.dataType.simpleString ++ "', "
    ++ generatorDefaultAttributesChain fld.dataType ++ ")"

/-- The `generatedCode` list assembled by `scriptDataGeneratorFromSchema`
(lines 290-319), before joining and optional printing. -/
def scriptGeneratedCode (schema : StructType) (name : Option String) : List String :=
  let name := match name with
    | none => DEFAULT_GENERATED_NAME
    | some n => n
  [GENERATED_COMMENT,
   "import dbldatagen as dg",
   "import pyspark.sql.types",
   GENERATED_FROM_SCHEMA_COMMENT,
   generationSpecHeader name]
  ++ schema.fields.map withColumnLine
  ++ ["    " ++ ")"]

/-- `DataAnalyzer.scriptDataGeneratorFromSchema` (lines 268-325).  The
`suppressOutput` flag only controls console printing (lines 321-323), which
has no effect on the returned string and is not otherwise modelled. -/
def scriptDataGeneratorFromSchema (schema : StructType) (suppressOutput : Bool)
    (name : Option String) : String :=
  String.intercalate "\n" (scriptGeneratedCode schema name)

/-- A generated line is a generation statement when it is an indented
`.withColumn(...)` call (prefix test on the character list). -/
def isGenerationStatement (line : String) : Bool :=
  List.isPrefixOf "    .withColumn".data line.data

/-! ## The dataframe engine

The summarization half of the module drives Spark through
`selectExpr` / `limit` / `union` / `count` / `describe`.  The model below
gives those operations executable semantics over concrete tables of
optional SQL values (a `none` cell is SQL `NULL`). -/

/-- A SQL value.  Doubles are carried as exact rationals; the NaN/Infinity
constructors make the IEEE special values representable (a column could
hold them), though no expression of the analyzed pipeline produces them —
in particular Spark's division never turns a zero divisor into NaN or
Infinity.  String renderings of finite doubles are exact rather than
binary-rounded, which no claim observes. -/
inductive SqlVal where
  | vInt (n : Int)
  | vDouble (q : Rat)
  | vNaN
  | vInf (positive : Bool)
  | vStr (s : String)
  | vBool (b : Bool)
deriving DecidableEq

/-- A table cell: `none` is SQL `NULL`. -/
abbrev Cell := Option SqlVal

/-- A table row. -/
abbrev DfRow := List Cell

/-- A Spark dataframe: a schema and concrete rows. -/
structure DataFrame where
  schema : StructType
  rows : List DfRow
deriving DecidableEq

/-- `df.dtypes`: (column name, simple type tag) pairs (used throughout
`summarizeToDF`). -/
def dtypes (df : DataFrame) : List (String × String) :=
  df.schema.fields.map (fun f => (f.name, f.dataType.simpleString))

/-- Rendering of a finite double as a string.  A double with an integral
value renders as in Spark (`4.0`); other rationals use an exact
numerator/denominator rendering, an abstraction of Spark's shortest-decimal
rendering that no claim observes. -/
def doubleToString (q : Rat) : String :=
  if q.den = 1 then toString q.num ++ ".0"
  else toString q.num ++ "/" ++ toString q.den

/-- `CAST(v AS STRING)` on a non-null value. -/
def castString : SqlVal → String
  | SqlVal.vInt n => toString n
  | SqlVal.vDouble q => doubleToString q
  | SqlVal.vNaN => "NaN"
  | SqlVal.vInf true => "Infinity"
  | SqlVal.vInf false => "-Infinity"
  | SqlVal.vStr s => s
  | SqlVal.vBool b => cond b "true" "false"

/-- The numeric content of a value, when it has one. -/
def cellRat : SqlVal → Option Rat
  | SqlVal.vInt n => some (n : Rat)
  | SqlVal.vDouble q => some q
  | _ => none

/-- Round-half-up of a rational to an integer. -/
def ratRoundHalfUp (q : Rat) : Int :=
  Int.fdiv (2 * q.num + (q.den : Int)) (2 * (q.den : Int))

/-- Round a rational to `digits` decimal places (Spark's `round(e, d)` on
doubles, up to the HALF_UP direction on exact ties). -/
def ratRoundTo (q : Rat) (digits : Nat) : Rat :=
  ((ratRoundHalfUp (q * (10 : Rat) ^ digits) : Rat)) / (10 : Rat) ^ digits

/-- `round(v, digits)` on a non-null value: NaN and infinities propagate,
doubles round, other values pass through (never reached by the analyzed
expressions). -/
def sqlRound (v : SqlVal) (digits : Nat) : SqlVal :=
  match v with
  | SqlVal.vDouble q => SqlVal.vDouble (ratRoundTo q digits)
  | SqlVal.vNaN => SqlVal.vNaN
  | SqlVal.vInf p => SqlVal.vInf p
  | w => w

/-- Numeric subtraction with Spark's coercions: NaN propagates, two
integers stay integral, a double operand makes the result double;
non-numeric operands give NULL. -/
def sqlSub (a b : Cell) : Cell :=
  match a, b with
  | some SqlVal.vNaN, _ => some SqlVal.vNaN
  | _, some SqlVal.vNaN => some SqlVal.vNaN
  | some (SqlVal.vInt m), some (SqlVal.vInt n) => some (SqlVal.vInt (m - n))
  | some x, some y =>
    match cellRat x, cellRat y with
    | some p, some q => some (SqlVal.vDouble (p - q))
    | _, _ => none
  | _, _ => none

/-- Spark's non-ANSI `/` (the `Divide` expression): a NULL operand gives
NULL, and a zero divisor gives SQL NULL — `DivModLike.eval` checks
`isZero(input2)` before dividing, for double and decimal operands alike, so
division by zero never yields NaN or Infinity.  A NaN operand with a
non-zero divisor propagates. -/
def sqlDiv (a b : Cell) : Cell :=
  match a, b with
  | some x, some y =>
    if cellRat y = some 0 then none
    else
      match x, y with
      | SqlVal.vNaN, _ => some SqlVal.vNaN
      | _, SqlVal.vNaN => some SqlVal.vNaN
      | _, _ =>
        match cellRat x, cellRat y with
        | some p, some q => some (SqlVal.vDouble (p / q))
        | _, _ => none
  | _, _ => none

/-- An arbitrary constructor ranking used to totalize comparisons across
heterogeneous values (never reached on well-typed columns). -/
def sqlCtorRank : SqlVal → Nat
  | SqlVal.vInt _ => 0
  | SqlVal.vDouble _ => 0
  | SqlVal.vNaN => 1
  | SqlVal.vInf _ => 1
  | SqlVal.vStr _ => 2
  | SqlVal.vBool _ => 3

/-- A total comparison on values, matching Spark's ordering on homogeneous
numeric and string columns (NaN sorts above every finite double); no claim
observes the min/max values themselves. -/
def sqlValLe (a b : SqlVal) : Bool :=
  match a, b with
  | SqlVal.vInt m, SqlVal.vInt n => decide (m ≤ n)
  | SqlVal.vInt m, SqlVal.vDouble q => decide ((m : Rat) ≤ q)
  | SqlVal.vDouble q, SqlVal.vInt m => decide (q ≤ (m : Rat))
  | SqlVal.vDouble q, SqlVal.vDouble r => decide (q ≤ r)
  | SqlVal.vStr s, SqlVal.vStr t => !decide (t < s)
  | SqlVal.vBool x, SqlVal.vBool y => !x || y
  | x, y => decide (sqlCtorRank x ≤ sqlCtorRank y)

/-- Index of a column in a schema. -/
def colIndex (st : StructType) (c : String) : Option Nat :=
  st.fields.findIdx? (fun f => f.name = c)

/-- The cells of column `c`, top to bottom (`none` when the column is
absent or a row is too short — not reachable from the analyzed pipeline). -/
def colValues (df : DataFrame) (c : String) : List Cell :=
  match colIndex df.schema c with
  | some i => df.rows.map (fun r => (r.get? i).join)
  | none => df.rows.map (fun _ => none)

/-- The non-null values of column `c`. -/
def colNonNullValues (df : DataFrame) (c : String) : List SqlVal :=
  (colValues df c).filterMap id

/-- `count(c)`: number of non-null values. -/
def countNonNull (df : DataFrame) (c : String) : Int :=
  ((colNonNullValues df c).length : Int)

/-- `count(distinct c)`: number of distinct non-null values. -/
def countDistinct (df : DataFrame) (c : String) : Int :=
  (((colNonNullValues df c).dedup).length : Int)

/-- `count(distinct *)`: number of distinct full rows, rows containing a
NULL excluded (Spark expands `*` to the column tuple, and distinct-count
skips tuples with a NULL component). -/
def countDistinctStarAgg (df : DataFrame) : Int :=
  (((df.rows.filter (fun r => r.all Option.isSome)).dedup).length : Int)

/-- `min(c)`: least non-null value, NULL when there is none. -/
def minAgg (df : DataFrame) (c : String) : Cell :=
  (colNonNullValues df c).foldl
    (fun acc v =>
      match acc with
      | none => some v
      | some w => some (if sqlValLe v w then v else w))
    none

/-- `max(c)`: greatest non-null value, NULL when there is none. -/
def maxAgg (df : DataFrame) (c : String) : Cell :=
  (colNonNullValues df c).foldl
    (fun acc v =>
      match acc with
      | none => some v
      | some w => some (if sqlValLe w v then v else w))
    none

/-- The SQL expression forms that `summarizeToDF` interpolates into its
`selectExpr` strings (lines 131, 159-199).  `toJsonColumnCount n` is
`to_json(named_struct('column_count', n))`. -/
inductive SqlExpr where
  | litStr (s : String)
  | litDouble (q : Rat)
  | toJsonColumnCount (n : Nat)
  | strCast (e : SqlExpr)
  | roundE (e : SqlExpr) (digits : Nat)
  | subE (a b : SqlExpr)
  | divE (a b : SqlExpr)
  | countCol (c : String)
  | countDistinctCol (c : String)
  | countDistinctStar
  | minCol (c : String)
  | maxCol (c : String)
deriving DecidableEq

namespace SqlExpr

/-- Whether an expression contains an aggregate function.  A `selectExpr`
containing an aggregate runs as a global aggregation (one result row). -/
def containsAgg : SqlExpr → Bool
  | litStr _ => false
  | litDouble _ => false
  | toJsonColumnCount _ => false
  | strCast e => containsAgg e
  | roundE e _ => containsAgg e
  | subE a b => containsAgg a || containsAgg b
  | divE a b => containsAgg a || containsAgg b
  | countCol _ => true
  | countDistinctCol _ => true
  | countDistinctStar => true
  | minCol _ => true
  | maxCol _ => true

end SqlExpr

/-- Evaluation in global-aggregation mode (the whole dataframe is one
group). -/
def evalAgg (df : DataFrame) : SqlExpr → Cell
  | SqlExpr.litStr s => some (SqlVal.vStr s)
  | SqlExpr.litDouble q => some (SqlVal.vDouble q)
  | SqlExpr.toJsonColumnCount n =>
    some (SqlVal.vStr ("\x7b\"column_count\":" ++ toString n ++ "\x7d"))
  | SqlExpr.strCast e => (evalAgg df e).map (fun v => SqlVal.vStr (castString v))
  | SqlExpr.roundE e d => (evalAgg df e).map (fun v => sqlRound v d)
  | SqlExpr.subE a b => sqlSub (evalAgg df a) (evalAgg df b)
  | SqlExpr.divE a b => sqlDiv (evalAgg df a) (evalAgg df b)
  | SqlExpr.countCol c => some (SqlVal.vInt (countNonNull df c))
  | SqlExpr.countDistinctCol c => some (SqlVal.vInt (countDistinct df c))
  | SqlExpr.countDistinctStar => some (SqlVal.vInt (countDistinctStarAgg df))
  | SqlExpr.minCol c => minAgg df c
  | SqlExpr.maxCol c => maxAgg df c

/-- Evaluation in per-row mode (no aggregate present).  The expressions the
module evaluates per-row are built from literals only, so the row content
is not consulted; aggregate constructors are unreachable in this mode and
map to NULL. -/
def evalRowExpr (row : DfRow) : SqlExpr → Cell
  | SqlExpr.litStr s => some (SqlVal.vStr s)
  | SqlExpr.litDouble q => some (SqlVal.vDouble q)
  | SqlExpr.toJsonColumnCount n =>
    some (SqlVal.vStr ("\x7b\"column_count\":" ++ toString n ++ "\x7d"))
  | SqlExpr.strCast e => (evalRowExpr row e).map (fun v => SqlVal.vStr (castString v))
  | SqlExpr.roundE e d => (evalRowExpr row e).map (fun v => sqlRound v d)
  | SqlExpr.subE a b => sqlSub (evalRowExpr row a) (evalRowExpr row b)
  | SqlExpr.divE a b => sqlDiv (evalRowExpr row a) (evalRowExpr row b)
  | _ => none

/-- A select-list entry: expression plus optional alias (the module's
f-strings alias every expression except the mean/stddev literals). -/
abbrev NamedExpr := SqlExpr × Option String

/-- The output column name of a select-list entry: the alias when present,
otherwise Spark's auto-generated name (abstracted; such columns are only
ever consumed positionally through `union`). -/
def namedExprName (e : NamedExpr) : String :=
  match e.2 with
  | some a => a
  | none =>
    match e.1 with
    | SqlExpr.litStr s => s
    | _ => "col"

/-- The output column type of a select-list entry (abstracted where Spark
would propagate the input column type; no claim observes these). -/
def namedExprType (e : NamedExpr) : SqlType :=
  match e.1 with
  | SqlExpr.countCol _ => SqlType.LongType
  | SqlExpr.countDistinctCol _ => SqlType.LongType
  | SqlExpr.countDistinctStar => SqlType.LongType
  | SqlExpr.litDouble _ => SqlType.DoubleType
  | SqlExpr.roundE _ _ => SqlType.DoubleType
  | SqlExpr.subE _ _ => SqlType.DoubleType
  | SqlExpr.divE _ _ => SqlType.DoubleType
  | _ => SqlType.StringType

/-- `df.selectExpr(*exprs)`: global aggregation (one row) when any
expression aggregates, otherwise one output row per input row. -/
def selectExpr (df : DataFrame) (exprs : List NamedExpr) : DataFrame :=
  { schema := ⟨exprs.map (fun e => ⟨namedExprName e, namedExprType e⟩)⟩,
    rows :=
      if exprs.any (fun e => e.1.containsAgg) then
        [exprs.map (fun e => evalAgg df e.1)]
      else
        df.rows.map (fun r => exprs.map (fun e => evalRowExpr r e.1)) }

/-- `df.limit(n)`. -/
def limitDF (n : Nat) (df : DataFrame) : DataFrame :=
  { schema := df.schema, rows := df.rows.take n }

/-- `a.union(b)`: positional union; fails (AnalysisException) when the
column counts differ, and keeps the left operand's schema. -/
def unionDF (a b : DataFrame) : Except PyErr DataFrame :=
  if a.schema.fields.length = b.schema.fields.length then
    Except.ok { schema := a.schema, rows := a.rows ++ b.rows }
  else
    Except.error PyErr.analysisException

/-! ## `addMeasureToSummary` and `summarizeToDF` -/

/-- `DataAnalyzer.addMeasureToSummary` (lines 115-141).  The two `assert`
statements run first; `exprs.extend(fieldExprs)` raises `TypeError` when
`fieldExprs` is left as its `None` default; then the measure-name literal
and the string-cast summary expression are prepended and the select, limit
and (when a summary table exists) union run. -/
def addMeasureToSummary (measureName : Option String) (summaryExpr : SqlExpr)
    (fieldExprs : Option (List NamedExpr)) (dfData : Option DataFrame)
    (rowLimit : Nat) (dfSummary : Option DataFrame) : Except PyErr DataFrame :=
  match dfData with
  | none => Except.error PyErr.assertionError
  | some d =>
    match measureName with
    | none => Except.error PyErr.assertionError
    | some m =>
      if m.length = 0 then Except.error PyErr.assertionError
      else
        match fieldExprs with
        | none => Except.error PyErr.typeError
        | some fes =>
          let exprs : List NamedExpr :=
            (SqlExpr.litStr m, some "measure_")
              :: (SqlExpr.strCast summaryExpr, some "summary_") :: fes
          let dfNew := limitDF rowLimit (selectExpr d exprs)
          match dfSummary with
          | some s => unionDF s dfNew
          | none => Except.ok dfNew

/-- Field expressions of the `schema` measure (line 162):
`'<dtype>' as <col>`. -/
def schemaMeasureFieldExprs (dts : List (String × String)) : List NamedExpr :=
  dts.map (fun d => (SqlExpr.litStr d.2, some d.1))

/-- Field expressions of the `count` measure (line 169):
`string(count(<col>)) as <col>`. -/
def countMeasureFieldExprs (dts : List (String × String)) : List NamedExpr :=
  dts.map (fun d => (SqlExpr.strCast (SqlExpr.countCol d.1), some d.1))

/-- Field expressions of the `null_probability` measure (line 175):
`string(round((<total> - count(<col>)) / <total>, 2)) as <col>`, where
`<total>` is the interpolated Python float `df.count() * 1.0` (text such as
`4.0`, which Spark's SQL parser reads as a decimal literal; the model
carries the one exact rational either way). -/
def nullProbabilityFieldExprs (totalCount : Rat) (dts : List (String × String)) :
    List NamedExpr :=
  dts.map (fun d =>
    (SqlExpr.strCast
      (SqlExpr.roundE
        (SqlExpr.divE
          (SqlExpr.subE (SqlExpr.litDouble totalCount) (SqlExpr.countCol d.1))
          (SqlExpr.litDouble totalCount))
        2),
     some d.1))

/-- Field expressions of the `distinct_count` measure (line 184). -/
def distinctCountFieldExprs (dts : List (String × String)) : List NamedExpr :=
  dts.map (fun d => (SqlExpr.strCast (SqlExpr.countDistinctCol d.1), some d.1))

/-- Field expressions of the `min` measure (line 191). -/
def minMeasureFieldExprs (dts : List (String × String)) : List NamedExpr :=
  dts.map (fun d => (SqlExpr.strCast (SqlExpr.minCol d.1), some d.1))

/-- Field expressions of the `max` measure (line 197). -/
def maxMeasureFieldExprs (dts : List (String × String)) : List NamedExpr :=
  dts.map (fun d => (SqlExpr.strCast (SqlExpr.maxCol d.1), some d.1))

/-- `str(x)` on an optional statistic (`str(None)` is the Python text
`None`). -/
def pyStrOfOpt (v : Option String) : String :=
  match v with
  | some s => s
  | none => "None"

/-- The rendered mean of a numeric column.  Modelled from the spec: the
descriptive-statistics primitive (`df.describe()`, line 201) is part of the
external engine; mean is the exact rational mean, NULL (rendered `None` by
the Python `str`) when the column has no non-null values. -/
def meanString (df : DataFrame) (c : String) : String :=
  let vs := (colNonNullValues df c).filterMap cellRat
  if vs.length = 0 then pyStrOfOpt none
  else pyStrOfOpt (some (doubleToString (vs.sum / (vs.length : Rat))))

/-- The rendered sample standard deviation of a numeric column.  Modelled
from the spec: the engine's own algorithm applies a square root, which has
no exact rational form; the rendering is abstracted to the exact sample
variance.  No claim observes the rendered value. -/
def stddevString (df : DataFrame) (c : String) : String :=
  let vs := (colNonNullValues df c).filterMap cellRat
  if vs.length < 2 then pyStrOfOpt none
  else
    let m := vs.sum / (vs.length : Rat)
    pyStrOfOpt (some (doubleToString
      ((vs.map (fun x => (x - m) * (x - m))).sum / ((vs.length : Rat) - 1))))

/-- The collected rows of
`df.describe().where("summary in ('mean', 'stddev')")` (lines 201-202).
Modelled from the spec: `describe` is the engine's built-in
descriptive-statistics primitive; it always produces a `mean` and a
`stddev` row, covering the numeric columns (each row's dictionary holds the
`summary` key followed by one entry per covered column, in schema order). -/
def describeRows (df : DataFrame) : List (String × List (String × String)) :=
  let numCols := df.schema.fields.filter (fun f => f.dataType.isNumericType)
  [("mean", numCols.map (fun f => (f.name, meanString df f.name))),
   ("stddev", numCols.map (fun f => (f.name, stddevString df f.name)))]

/-- Python dict assignment `d[k] = v` on an insertion-ordered association
list: update the existing entry in place, or append a new one. -/
def dictSet (L : List (String × String)) (k v : String) : List (String × String) :=
  match L with
  | [] => [(k, v)]
  | (k', v') :: rest =>
    if k' = k then (k, v) :: rest else (k', v') :: dictSet rest k v

/-- Python dict read `d[k]` (the analyzed code only reads keys it has
inserted; a missing key defaults to the empty string here). -/
def dictGet (L : List (String × String)) (k : String) : String :=
  match L.find? (fun p => p.1 = k) with
  | some p => p.2
  | none => ""

/-- The `values` dictionary of the mean/stddev loop (lines 204-211):
initialized to an empty string per field, then overwritten with the
stringified entries of the describe row (whose dictionary starts with the
`summary` key). -/
def describeValues (dts : List (String × String)) (measure : String)
    (entries : List (String × String)) : List (String × String) :=
  let values0 := dts.map (fun d => (d.1, ""))
  (("summary", measure) :: entries).foldl (fun acc kv => dictSet acc kv.1 kv.2) values0

/-- Field expressions of a mean/stddev measure (line 215):
`'<values[col]>'`, with no alias. -/
def describeFieldExprs (dts : List (String × String)) (measure : String)
    (entries : List (String × String)) : List NamedExpr :=
  dts.map (fun d =>
    (SqlExpr.litStr (dictGet (describeValues dts measure entries) d.1),
     (none : Option String)))

/-- `DataAnalyzer.summarizeToDF` (lines 143-219).  The `cache()` /
`createOrReplaceTempView` call is an engine-side side effect with no
bearing on the produced table and is not modelled.  `total_count` is
`self.df.count() * 1.0`, a Python float. -/
def summarizeToDF (df : DataFrame) : Except PyErr DataFrame := do
  let total : Rat := (df.rows.length : Rat)
  let dts := dtypes df
  let s1 ← addMeasureToSummary (some "schema")
    (SqlExpr.toJsonColumnCount dts.length)
    (some (schemaMeasureFieldExprs dts)) (some df) 1 none
  let s2 ← addMeasureToSummary (some "count")
    (SqlExpr.litDouble total)
    (some (countMeasureFieldExprs dts)) (some df) 1 (some s1)
  let s3 ← addMeasureToSummary (some "null_probability")
    (SqlExpr.litStr "")
    (some (nullProbabilityFieldExprs total dts)) (some df) 1 (some s2)
  let s4 ← addMeasureToSummary (some "distinct_count")
    SqlExpr.countDistinctStar
    (some (distinctCountFieldExprs dts)) (some df) 1 (some s3)
  let s5 ← addMeasureToSummary (some "min")
    (SqlExpr.litStr "")
    (some (minMeasureFieldExprs dts)) (some df) 1 (some s4)
  let s6 ← addMeasureToSummary (some "max")
    (SqlExpr.litStr "")
    (some (maxMeasureFieldExprs dts)) (some df) 1 (some s5)
  (describeRows df).foldlM
    (fun acc pr =>
      addMeasureToSummary (some pr.1) (SqlExpr.litStr "")
        (some (describeFieldExprs dts pr.1 pr.2)) (some df) 1 (some acc))
    s6

/-! ## Schema introspection and the analyzer object -/

/-- An entry of a (possibly malformed) Python schema's `fields` list:
either a genuine `StructField` or something else. -/
inductive SchemaEntry where
  | field (f : StructField)
  | notAField (descr : String)
deriving DecidableEq

namespace SchemaEntry

/-- `isinstance(x, StructField)`. -/
def isStructField : SchemaEntry → Bool
  | field _ => true
  | notAField _ => false

/-- The name of an entry (the placeholder text for a non-field, never
consulted after filtering). -/
def entryName : SchemaEntry → String
  | field f => f.name
  | notAField d => d

end SchemaEntry

/-- A Python-level schema object as `_getFieldNames` sees it: its `fields`
attribute may itself be `None`, and its entries may be malformed. -/
structure PySchema where
  fields : Option (List SchemaEntry)
deriving DecidableEq

/-- `DataAnalyzer._getFieldNames` (lines 90-95): guard against a `None`
schema or `None` fields, then take the names of the entries that are
`StructField` instances, in order. -/
def _getFieldNames (schema : Option PySchema) : List String :=
  match schema with
  | some s =>
    match s.fields with
    | some fs =>
      fs.filterMap (fun e =>
        match e with
        | SchemaEntry.field f => some f.name
        | SchemaEntry.notAField _ => none)
    | none => []
  | none => []

/-- The `type_mappings` table of `_lookupFieldType` (lines 61-67), in
insertion order. -/
def type_mappings : List (String × String) :=
  [("LongType", "Long"),
   ("IntegerType", "Int"),
   ("TimestampType", "Timestamp"),
   ("FloatType", "Float"),
   ("StringType", "String")]

/-- `DataAnalyzer._lookupFieldType` (lines 59-72): table lookup, identity
on keys not in the table. -/
def _lookupFieldType (typ : String) : String :=
  match type_mappings.find? (fun p => p.1 = typ) with
  | some p => p.2
  | none => typ

/-- `DataAnalyzer._summarizeField` (lines 74-79) on a genuine
`StructField`: `"<name> <lookup(str(dataType))>"`. -/
def _summarizeField (field : StructField) : String :=
  field.name ++ " " ++ _lookupFieldType field.dataType.pyTypeName

/-- `DataAnalyzer.summarizeFields` (lines 81-88) on a well-typed schema:
`Record(...)` over the per-field summaries, `N/A` for a `None` schema.
This — not the `schema` measure of `summarizeToDF` — is the consumer of
`_lookupFieldType`. -/
def summarizeFields (schema : Option StructType) : String :=
  match schema with
  | some st => "Record(" ++ String.intercalate "," (st.fields.map _summarizeField) ++ ")"
  | none => "N/A"

/-- `DataAnalyzer.__init__` (lines 45-57): `assert df is not None`; the
Spark-session bootstrap is an external side effect and not modelled. -/
structure DataAnalyzer where
  df : DataFrame
deriving DecidableEq

/-- The checked constructor: `DataAnalyzer(df)` with its assertion. -/
def DataAnalyzer.make (df : Option DataFrame) : Except PyErr DataAnalyzer :=
  match df with
  | none => Except.error PyErr.assertionError
  | some d => Except.ok ⟨d⟩

/-- `DataAnalyzer.scriptDataGeneratorFromData` (lines 327-349): the three
assertions hold for every constructed analyzer in this model (the dataframe
is present, is a dataframe, and has a schema), after which the call
delegates to `scriptDataGeneratorFromSchema` on `self.df.schema`. -/
def scriptDataGeneratorFromData (a : DataAnalyzer) (suppressOutput : Bool)
    (name : Option String) : String :=
  scriptDataGeneratorFromSchema a.df.schema suppressOutput name

/-! ## Observation helpers for stating the claims -/

/-- The number of rows of a summarization result, when it succeeded. -/
def resultRowCount (e : Except PyErr DataFrame) : Option Nat :=
  match e with
  | Except.ok t => some t.rows.length
  | Except.error _ => none

/-- The cell at row `i`, column `j` of a summarization result:
`some c` when the run succeeded and the position exists (`c` itself is
`none` exactly when that cell is SQL NULL). -/
def resultCell (e : Except PyErr DataFrame) (i j : Nat) : Option Cell :=
  match e with
  | Except.ok t =>
    match t.rows.get? i with
    | some r => r.get? j
    | none => none
  | Except.error _ => none

/-! ## Example inputs used by witnesses and counterexamples -/

/-- The `Record(id: Long, name: String)` schema of the spec's test
property. -/
def recIdName : StructType :=
  ⟨[⟨"id", SqlType.LongType⟩, ⟨"name", SqlType.StringType⟩]⟩

/-- A dataframe over `recIdName` with two rows (one `name` is NULL). -/
def dfIdName : DataFrame :=
  ⟨recIdName,
   [[some (SqlVal.vInt 1), some (SqlVal.vStr "x")],
    [some (SqlVal.vInt 2), none]]⟩

/-- A dataframe with one integer column and zero rows. -/
def dfEmptyInt : DataFrame :=
  ⟨⟨[⟨"a", SqlType.IntegerType⟩]⟩, []⟩

/-- A dataframe with one integer column and a single all-NULL row. -/
def dfOneNull : DataFrame :=
  ⟨⟨[⟨"a", SqlType.IntegerType⟩]⟩, [[none]]⟩

/-- A two-column summary table (as produced for a zero-field schema). -/
def dfSummary2 : DataFrame :=
  ⟨⟨[⟨"measure_", SqlType.StringType⟩, ⟨"summary_", SqlType.StringType⟩]⟩, []⟩

end DbldatagenModel

namespace DbldatagenModel

/-! ## Engine lemmas -/

theorem addMeasureToSummary_some_none (m : String) (hm : m.length ≠ 0) (se : SqlExpr)
    (fes : List NamedExpr) (d : DataFrame) (rl : Nat) :
    addMeasureToSummary (some m) se (some fes) (some d) rl none =
      Except.ok (limitDF rl (selectExpr d
        ((SqlExpr.litStr m, some "measure_")
          :: (SqlExpr.strCast se, some "summary_") :: fes))) := by
  simp [addMeasureToSummary, hm]

theorem addMeasureToSummary_some_some (m : String) (hm : m.length ≠ 0) (se : SqlExpr)
    (fes : List NamedExpr) (d s : DataFrame) (rl : Nat) :
    addMeasureToSummary (some m) se (some fes) (some d) rl (some s) =
      unionDF s (limitDF rl (selectExpr d
        ((SqlExpr.litStr m, some "measure_")
          :: (SqlExpr.strCast se, some "summary_") :: fes))) := by
  simp [addMeasureToSummary, hm]

theorem selectExpr_schema_length (d : DataFrame) (exprs : List NamedExpr) :
    (selectExpr d exprs).schema.fields.length = exprs.length := by
  simp [selectExpr]

theorem selectExpr_schema_names (d : DataFrame) (exprs : List NamedExpr) :
    (selectExpr d exprs).schema.fields.map StructField.name = exprs.map namedExprName := by
  simp [selectExpr]

theorem limitDF_schema (n : Nat) (df : DataFrame) : (limitDF n df).schema = df.schema := rfl

theorem selectExpr_rows_agg (d : DataFrame) (exprs : List NamedExpr)
    (h : exprs.any (fun e => e.1.containsAgg) = true) :
    (selectExpr d exprs).rows = [exprs.map (fun e => evalAgg d e.1)] := by
  simp [selectExpr, h]

theorem selectExpr_rows_noagg (d : DataFrame) (exprs : List NamedExpr)
    (h : exprs.any (fun e => e.1.containsAgg) = false) :
    (selectExpr d exprs).rows = d.rows.map (fun r => exprs.map (fun e => evalRowExpr r e.1)) := by
  simp [selectExpr, h]

theorem limit1_rows_agg (d : DataFrame) (exprs : List NamedExpr)
    (h : exprs.any (fun e => e.1.containsAgg) = true) :
    (limitDF 1 (selectExpr d exprs)).rows = [exprs.map (fun e => evalAgg d e.1)] := by
  simp [limitDF, selectExpr_rows_agg d exprs h]

theorem limit1_rows_noagg (d : DataFrame) (exprs : List NamedExpr) (r0 : DfRow)
    (rest : List DfRow) (h : exprs.any (fun e => e.1.containsAgg) = false)
    (hd : d.rows = r0 :: rest) :
    (limitDF 1 (selectExpr d exprs)).rows = [exprs.map (fun e => evalRowExpr r0 e.1)] := by
  simp [limitDF, selectExpr_rows_noagg d exprs h, hd]

theorem limit1_rows_single (d : DataFrame) (exprs : List NamedExpr) (hr : d.rows ≠ []) :
    ∃ row, (limitDF 1 (selectExpr d exprs)).rows = [row] := by
  cases hAgg : exprs.any (fun e => e.1.containsAgg) with
  | true => exact ⟨_, limit1_rows_agg d exprs hAgg⟩
  | false =>
    cases hd : d.rows with
    | nil => exact absurd hd hr
    | cons r0 rest => exact ⟨_, limit1_rows_noagg d exprs r0 rest hAgg hd⟩

theorem unionDF_ok (s t : DataFrame) (hw : s.schema.fields.length = t.schema.fields.length) :
    unionDF s t = Except.ok ⟨s.schema, s.rows ++ t.rows⟩ := by
  simp [unionDF, hw]

/-- One middle step of the `summarizeToDF` union chain appends exactly one
row and keeps the summary schema. -/
theorem addMeasure_append (d s : DataFrame) (m : String) (se : SqlExpr)
    (fes : List NamedExpr) (hm : m.length ≠ 0) (hr : d.rows ≠ [])
    (hw : s.schema.fields.length = 2 + fes.length) :
    ∃ row, addMeasureToSummary (some m) se (some fes) (some d) 1 (some s) =
      Except.ok ⟨s.schema, s.rows ++ [row]⟩ := by
  obtain ⟨row, hrow⟩ := limit1_rows_single d
    ((SqlExpr.litStr m, some "measure_") :: (SqlExpr.strCast se, some "summary_") :: fes) hr
  refine ⟨row, ?_⟩
  rw [addMeasureToSummary_some_some m hm se fes d s 1]
  have hw' : s.schema.fields.length =
      (limitDF 1 (selectExpr d ((SqlExpr.litStr m, some "measure_")
        :: (SqlExpr.strCast se, some "summary_") :: fes))).schema.fields.length := by
    rw [limitDF_schema, selectExpr_schema_length]
    simp only [List.length_cons]
    omega
  rw [unionDF_ok _ _ hw', hrow]

/-- A union-chain step whose select list is aggregate-free appends the row
obtained by evaluating the select list against the first data row. -/
theorem addMeasure_append_noagg (d s : DataFrame) (m : String) (se : SqlExpr)
    (fes : List NamedExpr) (hm : m.length ≠ 0) (r0 : DfRow) (rest : List DfRow)
    (hd : d.rows = r0 :: rest)
    (hAgg : (((SqlExpr.litStr m, some "measure_") ::
      (SqlExpr.strCast se, some "summary_") :: fes).any (fun e => e.1.containsAgg)) = false)
    (hw : s.schema.fields.length = 2 + fes.length) :
    addMeasureToSummary (some m) se (some fes) (some d) 1 (some s) =
      Except.ok ⟨s.schema, s.rows ++
        [((SqlExpr.litStr m, some "measure_") ::
          (SqlExpr.strCast se, some "summary_") :: fes).map
            (fun e => evalRowExpr r0 e.1)]⟩ := by
  rw [addMeasureToSummary_some_some m hm se fes d s 1]
  have hw' : s.schema.fields.length =
      (limitDF 1 (selectExpr d ((SqlExpr.litStr m, some "measure_") ::
        (SqlExpr.strCast se, some "summary_") :: fes))).schema.fields.length := by
    rw [limitDF_schema, selectExpr_schema_length]
    simp only [List.length_cons]
    omega
  rw [unionDF_ok _ _ hw', limit1_rows_noagg d _ r0 rest hAgg hd]

theorem countNonNull_of_rows_nil (d : DataFrame) (h : d.rows = []) (c : String) :
    countNonNull d c = 0 := by
  cases hc : colIndex d.schema c <;>
    simp [countNonNull, colNonNullValues, colValues, h, hc]

/-- The `null_probability` per-field expression evaluates to SQL NULL on a
zero-row dataframe: `count` is `0`, the interpolated total is the literal
`0.0`, the zero divisor makes `(0.0 - 0) / 0.0` NULL, and `round` and
`string` pass NULL through. -/
theorem evalAgg_nullProb_zero_rows (d : DataFrame) (h : d.rows = []) (c : String) :
    evalAgg d (SqlExpr.strCast (SqlExpr.roundE (SqlExpr.divE
      (SqlExpr.subE (SqlExpr.litDouble ((d.rows.length : Nat) : Rat)) (SqlExpr.countCol c))
      (SqlExpr.litDouble ((d.rows.length : Nat) : Rat))) 2)) = none := by
  have hc := countNonNull_of_rows_nil d h c
  simp [evalAgg, hc, h, sqlSub, sqlDiv, cellRat, sqlRound, castString]

theorem dictGet_dictSet_ne (L : List (String × String)) (a k v : String) (h : a ≠ k) :
    dictGet (dictSet L a v) k = dictGet L k := by
  induction L with
  | nil => simp [dictGet, dictSet, List.find?, h]
  | cons p rest ih =>
    obtain ⟨p1, p2⟩ := p
    by_cases hpa : p1 = a
    · subst hpa
      simp [dictSet, dictGet, List.find?, h]
    · by_cases hk : p1 = k
      · subst hk
        simp [dictSet, dictGet, List.find?, hpa]
      · simp only [dictSet, if_neg hpa]
        simp [dictGet, List.find?, hk] at ih ⊢
        exact ih

theorem dictGet_foldl_ne (rowDict : List (String × String)) (k : String)
    (L : List (String × String)) (h : ∀ p ∈ rowDict, p.1 ≠ k) :
    dictGet (rowDict.foldl (fun acc kv => dictSet acc kv.1 kv.2) L) k = dictGet L k := by
  induction rowDict generalizing L with
  | nil => rfl
  | cons p ps ih =>
    simp only [List.foldl_cons]
    rw [ih (dictSet L p.1 p.2) (fun q hq => h q (List.mem_cons_of_mem _ hq)),
        dictGet_dictSet_ne L p.1 k p.2 (h p (List.mem_cons_self _ _))]

theorem dictGet_blanks (dts : List (String × String)) (k : String) :
    dictGet (dts.map (fun d => (d.1, ""))) k = "" := by
  induction dts with
  | nil => rfl
  | cons d rest ih =>
    by_cases hk : d.1 = k
    · simp [dictGet, List.find?, hk]
    · simp [dictGet, List.find?, hk] at ih ⊢
      exact ih

theorem except_bind_ok {ε α β : Type} (a : α) (k : α → Except ε β) :
    (Except.ok a >>= k) = k a := rfl

/-- The select list of a mean/stddev append is aggregate-free (every entry
is a string literal). -/
theorem describe_exprs_noagg (mname : String) (se : SqlExpr)
    (hse : se.containsAgg = false) (dts : List (String × String)) (me : String)
    (entries : List (String × String)) :
    (((SqlExpr.litStr mname, some "measure_") ::
      (SqlExpr.strCast se, some "summary_") ::
      describeFieldExprs dts me entries).any (fun e => e.1.containsAgg)) = false := by
  simp only [describeFieldExprs, SqlExpr.containsAgg, List.any_cons, Bool.false_or,
    List.any_map, List.any_eq_false, hse]
  intro e he
  obtain ⟨d, hmem, rfl⟩ := List.mem_map.mp he
  simp [SqlExpr.containsAgg]

/-- A field name that the describe row does not mention (and that is not
the dictionary's `summary` key) keeps its empty-string initialization in
the `values` dictionary of the mean/stddev loop. -/
theorem dictGet_describeValues_blank (dts : List (String × String)) (measure : String)
    (entries : List (String × String)) (k : String)
    (h1 : ∀ p ∈ entries, p.1 ≠ k) (h2 : k ≠ "summary") :
    dictGet (describeValues dts measure entries) k = "" := by
  unfold describeValues
  rw [dictGet_foldl_ne (("summary", measure) :: entries) k _ ?hall]
  · exact dictGet_blanks dts k
  case hall =>
    intro p hp
    rcases List.mem_cons.mp hp with hp | hp
    · rw [hp]
      exact Ne.symm h2
    · exact h1 p hp

end DbldatagenModel

namespace DbldatagenModel

/-! ## Claims -/

/-- C1 (counterexample): the type-default resolver is not total on
arbitrary inputs — called with a plain string (here `"unrecognized"`), the
`isinstance(sqlType, DataType)` assertion raises `AssertionError` instead
of returning an attribute string. -/
theorem generatorDefaults_string_input_raises :
    _generatorDefaultAttributesFromType (PyValue.pyStr "unrecognized") =
      Except.error PyErr.assertionError := rfl

/-- C1 (amended): restricted to `DataType` inputs the resolver is total —
for every data type, recognized or not, it returns a non-empty attribute
string and never raises (the unrecognized ones fall through to the
`expr='null'` catch-all); any non-`DataType` input such as a string is
rejected by the `isinstance` assertion with `AssertionError`. -/
theorem generatorDefaults_total_on_datatypes :
    (∀ t : SqlType, ∃ s, _generatorDefaultAttributesFromType (PyValue.dataType t) =
        Except.ok s ∧ s ≠ "") ∧
    (∀ str : String, _generatorDefaultAttributesFromType (PyValue.pyStr str) =
        Except.error PyErr.assertionError) := by
  constructor
  · intro t
    refine ⟨generatorDefaultAttributesChain t, rfl, ?_⟩
    cases t <;> simp [generatorDefaultAttributesChain]
  · intro str
    rfl

/-- C3: `scriptDataGeneratorFromSchema` is deterministic — for a fixed
schema and name the returned string is identical across invocations,
whatever the `suppressOutput` flag (which only controls console printing):
the generated text depends on nothing but the schema and the name. -/
theorem scriptDataGeneratorFromSchema_deterministic
    (schema : StructType) (name : Option String) (so1 so2 : Bool) :
    scriptDataGeneratorFromSchema schema so1 name =
      scriptDataGeneratorFromSchema schema so2 name := rfl

set_option maxRecDepth 16384 in
/-- C6: for the schema `Record(id: Long, name: String)` the generated code
contains exactly two generation statements, in schema field order: `id`
with the numeric-range attributes and `name` with the text-template
attribute. -/
theorem scriptFromSchema_recIdName_statements :
    (scriptGeneratedCode recIdName none).filter isGenerationStatement =
      ["    .withColumn('id', 'bigint', minValue=1, maxValue=1000000)",
       "    .withColumn('name', 'string', template=r'\\\\w')"] := by rfl

/-- C8: `_getFieldNames` never fails — a `None` schema (or `None` fields
attribute) yields the empty list, and otherwise it returns exactly the
names of the `StructField` entries, in declaration order, silently skipping
entries that are not recognizable field definitions. -/
theorem getFieldNames_total :
    _getFieldNames none = [] ∧
    _getFieldNames (some ⟨none⟩) = [] ∧
    (∀ entries : List SchemaEntry,
      _getFieldNames (some ⟨some entries⟩) =
        (entries.filter SchemaEntry.isStructField).map SchemaEntry.entryName) := by
  refine ⟨rfl, rfl, ?_⟩
  intro entries
  induction entries with
  | nil => rfl
  | cons e rest ih =>
    cases e with
    | field f =>
      simp [_getFieldNames, List.filter, SchemaEntry.isStructField, SchemaEntry.entryName]
      simpa [_getFieldNames] using ih
    | notAField d =>
      simp [_getFieldNames, List.filter, SchemaEntry.isStructField]
      simpa [_getFieldNames] using ih

/-- C9: generating code from the data path is a pure delegation to the
schema path — for every analyzer constructed from a (non-null) dataframe,
`scriptDataGeneratorFromData` returns exactly
`scriptDataGeneratorFromSchema` applied to the dataframe's schema. -/
theorem scriptFromData_delegates_to_schema
    (df : DataFrame) (so : Bool) (name : Option String) (a : DataAnalyzer)
    (h : DataAnalyzer.make (some df) = Except.ok a) :
    scriptDataGeneratorFromData a so name =
      scriptDataGeneratorFromSchema df.schema so name := by
  have ha : a = ⟨df⟩ := by
    simpa [DataAnalyzer.make] using h.symm
  subst ha
  rfl

/-- Witness for C9 at the concrete dataframe `dfIdName`. -/
theorem scriptFromData_delegates_to_schema_witness :
    DataAnalyzer.make (some dfIdName) = Except.ok ⟨dfIdName⟩ ∧
    scriptDataGeneratorFromData ⟨dfIdName⟩ false none =
      scriptDataGeneratorFromSchema dfIdName.schema false none :=
  ⟨rfl, scriptFromData_delegates_to_schema dfIdName false none ⟨dfIdName⟩ rfl⟩

/-- C10: `addMeasureToSummary` rejects its inputs before any engine
evaluation — when the source dataframe is `None`, or the measure name is
`None` or empty, the call raises `AssertionError` (and, returning an error,
produces no new table, so the existing summary table is untouched). -/
theorem addMeasureToSummary_rejects_invalid_inputs
    (m : Option String) (se : SqlExpr) (fe : Option (List NamedExpr))
    (dd : Option DataFrame) (rl : Nat) (ds : Option DataFrame)
    (h : dd = none ∨ m = none ∨ m = some "") :
    addMeasureToSummary m se fe dd rl ds = Except.error PyErr.assertionError := by
  rcases h with h | h | h
  · subst h; rfl
  · subst h; cases dd <;> rfl
  · subst h; cases dd <;> rfl

/-- C4 (counterexample): on a concrete dataset with 0 rows the
`null_probability` computation completes (one measure row, no exception),
but the cell it yields for the schema's only field is SQL NULL — the zero
divisor in `(0.0 - count(a)) / 0.0` makes Spark's non-ANSI division return
NULL — so the measure does not yield a defined value for every field. -/
theorem nullProbability_zero_rows_null_cell :
    resultRowCount (addMeasureToSummary (some "null_probability") (SqlExpr.litStr "")
        (some (nullProbabilityFieldExprs ((dfEmptyInt.rows.length : Nat) : Rat)
          (dtypes dfEmptyInt)))
        (some dfEmptyInt) 1 none) = some 1 ∧
    resultCell (addMeasureToSummary (some "null_probability") (SqlExpr.litStr "")
        (some (nullProbabilityFieldExprs ((dfEmptyInt.rows.length : Nat) : Rat)
          (dtypes dfEmptyInt)))
        (some dfEmptyInt) 1 none) 0 2 = some none :=
  ⟨rfl, rfl⟩

/-- C4 (amended): on a dataset with 0 rows the `null_probability` measure
computation does not raise — the call returns normally and produces its
measure row — but each field's cell in that row is SQL NULL rather than a
defined sentinel, because the interpolated total `0.0` is a zero divisor
and Spark's non-ANSI division yields NULL there (the spec itself notes the
source behavior at this edge is not a reproduced one). -/
theorem nullProbability_zero_rows_no_raise (df : DataFrame) (h : df.rows = []) :
    ∃ t, addMeasureToSummary (some "null_probability") (SqlExpr.litStr "")
        (some (nullProbabilityFieldExprs ((df.rows.length : Nat) : Rat) (dtypes df)))
        (some df) 1 none = Except.ok t ∧
      ∀ i, i < df.schema.fields.length →
        ∃ r, t.rows.head? = some r ∧ r.get? (i + 2) = some none := by
  rw [addMeasureToSummary_some_none "null_probability" (by decide) _ _ df 1]
  refine ⟨_, rfl, ?_⟩
  intro i hi
  have hne : df.schema.fields ≠ [] := by
    intro hnil
    rw [hnil] at hi
    simp at hi
  obtain ⟨f0, fs, hfields⟩ : ∃ f0 fs, df.schema.fields = f0 :: fs := by
    cases hf : df.schema.fields with
    | nil => exact absurd hf hne
    | cons a l => exact ⟨a, l, rfl⟩
  have hAgg : (((SqlExpr.litStr "null_probability", some "measure_") ::
      (SqlExpr.strCast (SqlExpr.litStr ""), some "summary_") ::
      nullProbabilityFieldExprs ((df.rows.length : Nat) : Rat) (dtypes df)).any
        (fun e => e.1.containsAgg)) = true := by
    simp [nullProbabilityFieldExprs, dtypes, hfields, SqlExpr.containsAgg]
  rw [limit1_rows_agg df _ hAgg]
  refine ⟨_, rfl, ?_⟩
  have hlen : i < (dtypes df).length := by
    simpa [dtypes] using hi
  obtain ⟨dti, hdti⟩ : ∃ x, (dtypes df).get? i = some x := ⟨_, List.get?_eq_get hlen⟩
  obtain ⟨c, tag⟩ := dti
  rw [List.map_cons, List.map_cons, List.get?_cons_succ, List.get?_cons_succ,
    List.get?_map]
  simp only [nullProbabilityFieldExprs]
  rw [List.get?_map, hdti]
  simp only [Option.map_some']
  rw [evalAgg_nullProb_zero_rows df h c]

/-- Witness for C4 at the concrete zero-row dataframe `dfEmptyInt`. -/
theorem nullProbability_zero_rows_no_raise_witness :
    dfEmptyInt.rows = [] ∧
    (∃ t, addMeasureToSummary (some "null_probability") (SqlExpr.litStr "")
        (some (nullProbabilityFieldExprs ((dfEmptyInt.rows.length : Nat) : Rat)
          (dtypes dfEmptyInt)))
        (some dfEmptyInt) 1 none = Except.ok t ∧
      ∀ i, i < dfEmptyInt.schema.fields.length →
        ∃ r, t.rows.head? = some r ∧ r.get? (i + 2) = some none) :=
  ⟨rfl, nullProbability_zero_rows_no_raise dfEmptyInt rfl⟩

/-- C5 (counterexample): requesting a measure whose per-field expression
list is absent fails with Python's `TypeError`
(`exprs.extend(None)`), not with the spec's `InvalidMeasureError` — no such
error exists in the code. -/
theorem addMeasure_unknown_measure_raises_typeError :
    addMeasureToSummary (some "cardinality") (SqlExpr.litStr "") none (some dfIdName) 1 none =
      Except.error PyErr.typeError ∧
    PyErr.typeError ≠ PyErr.invalidMeasureError :=
  ⟨rfl, by decide⟩

/-- C5 (amended): requesting a measure with no per-field expression list
(`fieldExprs` left `None`, the case of a missing expression builder) raises
`TypeError` (there is no `InvalidMeasureError`); a measure over a schema
with zero fields (empty `fieldExprs`) appends a single row holding only the
measure name and the default summary value to the summary table rather than
aborting. -/
theorem addMeasure_missing_builder_and_zero_fields (d s : DataFrame) (m : String)
    (hm : m.length ≠ 0) (hr : d.rows ≠ []) (hw : s.schema.fields.length = 2) :
    addMeasureToSummary (some m) (SqlExpr.litStr "") none (some d) 1 (some s) =
      Except.error PyErr.typeError ∧
    ∃ t, addMeasureToSummary (some m) (SqlExpr.litStr "") (some []) (some d) 1 (some s) =
      Except.ok t ∧ t.rows = s.rows ++ [[some (SqlVal.vStr m), some (SqlVal.vStr "")]] := by
  constructor
  · simp [addMeasureToSummary, hm]
  · obtain ⟨r0, rest, hd⟩ : ∃ r0 rest, d.rows = r0 :: rest := by
      cases hf : d.rows with
      | nil => exact absurd hf hr
      | cons a l => exact ⟨a, l, rfl⟩
    rw [addMeasureToSummary_some_some m hm (SqlExpr.litStr "") [] d s 1]
    have hAgg : (((SqlExpr.litStr m, some "measure_") ::
        (SqlExpr.strCast (SqlExpr.litStr ""), some "summary_") ::
        ([] : List NamedExpr)).any (fun e => e.1.containsAgg)) = false := by
      simp [SqlExpr.containsAgg]
    have hw' : s.schema.fields.length =
        (limitDF 1 (selectExpr d ((SqlExpr.litStr m, some "measure_") ::
          (SqlExpr.strCast (SqlExpr.litStr ""), some "summary_") ::
          ([] : List NamedExpr)))).schema.fields.length := by
      rw [limitDF_schema, selectExpr_schema_length]
      simpa using hw
    rw [unionDF_ok _ _ hw']
    refine ⟨_, rfl, ?_⟩
    rw [limit1_rows_noagg d _ r0 rest hAgg hd]
    simp [evalRowExpr, castString]

/-- Witness for C5 at concrete inputs (`min` over the zero-field expression
list, appended to a two-column summary table). -/
theorem addMeasure_missing_builder_and_zero_fields_witness :
    ("min".length ≠ 0) ∧ dfIdName.rows ≠ [] ∧ dfSummary2.schema.fields.length = 2 ∧
    (addMeasureToSummary (some "min") (SqlExpr.litStr "") none (some dfIdName) 1
        (some dfSummary2) = Except.error PyErr.typeError ∧
     ∃ t, addMeasureToSummary (some "min") (SqlExpr.litStr "") (some []) (some dfIdName) 1
        (some dfSummary2) = Except.ok t ∧
       t.rows = dfSummary2.rows ++ [[some (SqlVal.vStr "min"), some (SqlVal.vStr "")]]) :=
  ⟨by decide, by decide, rfl,
   addMeasure_missing_builder_and_zero_fields dfIdName dfSummary2 "min"
     (by decide) (by decide) rfl⟩

/-- C7 (counterexample): for a `Long` column the `schema` measure reports
the raw `dtypes` tag `bigint`, while the declared type name `LongType`
mapped through the canonicalization table gives `Long` — the reported value
is not the canonicalized declared type name. -/
theorem schemaMeasure_reports_raw_dtype :
    resultCell (summarizeToDF dfIdName) 0 2 = some (some (SqlVal.vStr "bigint")) ∧
    _lookupFieldType (SqlType.pyTypeName SqlType.LongType) = "Long" ∧
    SqlVal.vStr "bigint" ≠
      SqlVal.vStr (_lookupFieldType (SqlType.pyTypeName SqlType.LongType)) := by
  refine ⟨by rfl, rfl, by decide⟩

/-- C7 (amended): in the `schema` measure each field's reported value is
the field's `dtypes` simple-string type tag, taken directly and not passed
through the canonicalization table (which is consumed by `summarizeFields`
instead); the canonicalization table itself is the identity on every type
tag not among its keys. -/
theorem schemaMeasure_raw_tags_and_lookup_identity (df : DataFrame) (hr : df.rows ≠ []) :
    (∃ t, addMeasureToSummary (some "schema")
        (SqlExpr.toJsonColumnCount (dtypes df).length)
        (some (schemaMeasureFieldExprs (dtypes df))) (some df) 1 none = Except.ok t ∧
      ∀ i f, df.schema.fields.get? i = some f →
        ∃ r, t.rows.head? = some r ∧
          r.get? (i + 2) = some (some (SqlVal.vStr f.dataType.simpleString))) ∧
    (∀ s : String, s ∉ type_mappings.map Prod.fst → _lookupFieldType s = s) := by
  constructor
  · rw [addMeasureToSummary_some_none "schema" (by decide) _ _ df 1]
    refine ⟨_, rfl, ?_⟩
    intro i f hf
    obtain ⟨r0, rest, hd⟩ : ∃ r0 rest, df.rows = r0 :: rest := by
      cases hc : df.rows with
      | nil => exact absurd hc hr
      | cons a l => exact ⟨a, l, rfl⟩
    have hAgg : (((SqlExpr.litStr "schema", some "measure_") ::
        (SqlExpr.strCast (SqlExpr.toJsonColumnCount (dtypes df).length), some "summary_") ::
        schemaMeasureFieldExprs (dtypes df)).any (fun e => e.1.containsAgg)) = false := by
      simp only [schemaMeasureFieldExprs, SqlExpr.containsAgg, List.any_cons,
        Bool.false_or, List.any_map, List.any_eq_false]
      intro e he
      obtain ⟨d, hmem, rfl⟩ := List.mem_map.mp he
      simp [SqlExpr.containsAgg]
    rw [limit1_rows_noagg df _ r0 rest hAgg hd]
    refine ⟨_, rfl, ?_⟩
    have hdt : (dtypes df).get? i = some (f.name, f.dataType.simpleString) := by
      unfold dtypes
      rw [List.get?_map, hf]
      rfl
    rw [List.map_cons, List.map_cons, List.get?_cons_succ, List.get?_cons_succ,
      List.get?_map]
    simp only [schemaMeasureFieldExprs]
    rw [List.get?_map, hdt]
    rfl
  · intro s hs
    simp [type_mappings] at hs
    obtain ⟨h1, h2, h3, h4, h5⟩ := hs
    simp [_lookupFieldType, type_mappings, List.find?,
      Ne.symm h1, Ne.symm h2, Ne.symm h3, Ne.symm h4, Ne.symm h5]

/-- Witness for C7 at the concrete dataframe `dfIdName`. -/
theorem schemaMeasure_raw_tags_witness :
    dfIdName.rows ≠ [] ∧
    ((∃ t, addMeasureToSummary (some "schema")
        (SqlExpr.toJsonColumnCount (dtypes dfIdName).length)
        (some (schemaMeasureFieldExprs (dtypes dfIdName))) (some dfIdName) 1 none =
          Except.ok t ∧
      ∀ i f, dfIdName.schema.fields.get? i = some f →
        ∃ r, t.rows.head? = some r ∧
          r.get? (i + 2) = some (some (SqlVal.vStr f.dataType.simpleString))) ∧
    (∀ s : String, s ∉ type_mappings.map Prod.fst → _lookupFieldType s = s)) :=
  ⟨by decide, schemaMeasure_raw_tags_and_lookup_identity dfIdName (by decide)⟩

/-- C2 (counterexample): on a dataset with 0 rows the summary table has 5
rows, not 8 — the `schema`, `mean` and `stddev` measures select only
literal expressions, so their `selectExpr(...).limit(1)` contributes no row
on an empty dataframe; and on a one-row dataset whose only (integer) column
is NULL, the `min` measure's cell for that field is SQL NULL, not the empty
string. -/
theorem summarizeToDF_zero_rows_not_eight :
    resultRowCount (summarizeToDF dfEmptyInt) = some 5 ∧
    resultRowCount (summarizeToDF dfEmptyInt) ≠ some 8 ∧
    resultCell (summarizeToDF dfOneNull) 4 2 = some none ∧
    resultCell (summarizeToDF dfOneNull) 4 2 ≠ some (some (SqlVal.vStr "")) := by
  refine ⟨by rfl, by decide, by rfl, by decide⟩

/-- C2 (amended): for every dataset with at least one row, a full
summarization run yields exactly 8 rows (one per measure) and N+2 columns,
the column names being `measure_`, `summary_`, then the schema's field
names in schema order; and in the `mean` and `stddev` rows every field that
the descriptive-statistics primitive's result row does not cover (here: a
field whose name is carried by no numeric column and is distinct from the
row dictionary's `summary` key) is filled with the empty string.  (Cells of
other measures may instead be SQL NULL when the statistic is undefined.) -/
theorem summarizeToDF_shape (df : DataFrame) (hr : df.rows ≠ []) :
    ∃ t, summarizeToDF df = Except.ok t ∧
      t.rows.length = 8 ∧
      t.schema.fields.length = df.schema.fields.length + 2 ∧
      t.schema.fields.map StructField.name =
        "measure_" :: "summary_" :: df.schema.fields.map StructField.name ∧
      (∀ i f, df.schema.fields.get? i = some f →
        (∀ g ∈ df.schema.fields, g.name = f.name → g.dataType.isNumericType = false) →
        f.name ≠ "summary" →
        ∃ r6 r7, t.rows.get? 6 = some r6 ∧ t.rows.get? 7 = some r7 ∧
          r6.get? (i + 2) = some (some (SqlVal.vStr "")) ∧
          r7.get? (i + 2) = some (some (SqlVal.vStr ""))) := by
  obtain ⟨r0, rest, hd⟩ : ∃ r0 rest, df.rows = r0 :: rest := by
    cases hc : df.rows with
    | nil => exact absurd hc hr
    | cons a l => exact ⟨a, l, rfl⟩
  have hdtlen : (dtypes df).length = df.schema.fields.length := by
    simp [dtypes]
  set exprs1 : List NamedExpr :=
    (SqlExpr.litStr "schema", some "measure_") ::
    (SqlExpr.strCast (SqlExpr.toJsonColumnCount (dtypes df).length), some "summary_") ::
    schemaMeasureFieldExprs (dtypes df) with hexprs1
  set s1 : DataFrame := limitDF 1 (selectExpr df exprs1) with hs1
  have h1 : addMeasureToSummary (some "schema")
      (SqlExpr.toJsonColumnCount (dtypes df).length)
      (some (schemaMeasureFieldExprs (dtypes df))) (some df) 1 none = Except.ok s1 :=
    addMeasureToSummary_some_none "schema" (by decide) _ _ df 1
  have hs1len : s1.schema.fields.length = 2 + (dtypes df).length := by
    rw [hs1, limitDF_schema, selectExpr_schema_length, hexprs1]
    simp only [List.length_cons, schemaMeasureFieldExprs, List.length_map]
    omega
  obtain ⟨row1, hrow1⟩ : ∃ row1, s1.rows = [row1] := by
    rw [hs1]
    exact limit1_rows_single df exprs1 hr
  -- count
  obtain ⟨row2, h2⟩ := addMeasure_append df s1 "count"
    (SqlExpr.litDouble ((df.rows.length : Rat)))
    (countMeasureFieldExprs (dtypes df)) (by decide) hr
    (by rw [hs1len]; simp [countMeasureFieldExprs])
  -- null_probability
  obtain ⟨row3, h3⟩ := addMeasure_append df ⟨s1.schema, s1.rows ++ [row2]⟩
    "null_probability" (SqlExpr.litStr "")
    (nullProbabilityFieldExprs ((df.rows.length : Rat)) (dtypes df)) (by decide) hr
    (by show s1.schema.fields.length = _
        rw [hs1len]; simp [nullProbabilityFieldExprs])
  -- distinct_count
  obtain ⟨row4, h4⟩ := addMeasure_append df ⟨s1.schema, (s1.rows ++ [row2]) ++ [row3]⟩
    "distinct_count" SqlExpr.countDistinctStar
    (distinctCountFieldExprs (dtypes df)) (by decide) hr
    (by show s1.schema.fields.length = _
        rw [hs1len]; simp [distinctCountFieldExprs])
  -- min
  obtain ⟨row5, h5⟩ := addMeasure_append df
    ⟨s1.schema, ((s1.rows ++ [row2]) ++ [row3]) ++ [row4]⟩
    "min" (SqlExpr.litStr "")
    (minMeasureFieldExprs (dtypes df)) (by decide) hr
    (by show s1.schema.fields.length = _
        rw [hs1len]; simp [minMeasureFieldExprs])
  -- max
  obtain ⟨row6, h6⟩ := addMeasure_append df
    ⟨s1.schema, (((s1.rows ++ [row2]) ++ [row3]) ++ [row4]) ++ [row5]⟩
    "max" (SqlExpr.litStr "")
    (maxMeasureFieldExprs (dtypes df)) (by decide) hr
    (by show s1.schema.fields.length = _
        rw [hs1len]; simp [maxMeasureFieldExprs])
  -- the two describe rows
  set E1 : List (String × String) :=
    (df.schema.fields.filter (fun g => g.dataType.isNumericType)).map
      (fun g => (g.name, meanString df g.name)) with hE1
  set E2 : List (String × String) :=
    (df.schema.fields.filter (fun g => g.dataType.isNumericType)).map
      (fun g => (g.name, stddevString df g.name)) with hE2
  have hdesc : describeRows df = [("mean", E1), ("stddev", E2)] := by
    rw [hE1, hE2]; rfl
  -- mean
  have h7 := addMeasure_append_noagg df
    ⟨s1.schema, ((((s1.rows ++ [row2]) ++ [row3]) ++ [row4]) ++ [row5]) ++ [row6]⟩
    "mean" (SqlExpr.litStr "")
    (describeFieldExprs (dtypes df) "mean" E1) (by decide) r0 rest hd
    (describe_exprs_noagg "mean" (SqlExpr.litStr "") rfl (dtypes df) "mean" E1)
    (by show s1.schema.fields.length = _
        rw [hs1len]; simp [describeFieldExprs])
  set row7 : DfRow :=
    ((SqlExpr.litStr "mean", some "measure_") ::
      (SqlExpr.strCast (SqlExpr.litStr ""), some "summary_") ::
      describeFieldExprs (dtypes df) "mean" E1).map
        (fun e => evalRowExpr r0 e.1) with hrow7
  -- stddev
  have h8 := addMeasure_append_noagg df
    ⟨s1.schema, (((((s1.rows ++ [row2]) ++ [row3]) ++ [row4]) ++ [row5]) ++ [row6]) ++ [row7]⟩
    "stddev" (SqlExpr.litStr "")
    (describeFieldExprs (dtypes df) "stddev" E2) (by decide) r0 rest hd
    (describe_exprs_noagg "stddev" (SqlExpr.litStr "") rfl (dtypes df) "stddev" E2)
    (by show s1.schema.fields.length = _
        rw [hs1len]; simp [describeFieldExprs])
  set row8 : DfRow :=
    ((SqlExpr.litStr "stddev", some "measure_") ::
      (SqlExpr.strCast (SqlExpr.litStr ""), some "summary_") ::
      describeFieldExprs (dtypes df) "stddev" E2).map
        (fun e => evalRowExpr r0 e.1) with hrow8
  -- run the pipeline
  have hrun : summarizeToDF df = Except.ok
      ⟨s1.schema, ((((((s1.rows ++ [row2]) ++ [row3]) ++ [row4]) ++ [row5]) ++ [row6])
        ++ [row7]) ++ [row8]⟩ := by
    simp only [summarizeToDF]
    simp only [h1, except_bind_ok]
    simp only [h2, except_bind_ok]
    simp only [h3, except_bind_ok]
    simp only [h4, except_bind_ok]
    simp only [h5, except_bind_ok]
    simp only [h6, except_bind_ok]
    rw [hdesc]
    simp only [List.foldlM]
    simp only [h7, except_bind_ok, ← hrow7]
    simp only [h8, except_bind_ok, ← hrow8]
    rfl
  refine ⟨_, hrun, ?_, ?_, ?_, ?_⟩
  · show (((((((s1.rows ++ [row2]) ++ [row3]) ++ [row4]) ++ [row5]) ++ [row6])
      ++ [row7]) ++ [row8]).length = 8
    rw [hrow1]
    rfl
  · show s1.schema.fields.length = df.schema.fields.length + 2
    rw [hs1len, hdtlen]
    omega
  · show s1.schema.fields.map StructField.name = _
    rw [hs1, limitDF_schema, selectExpr_schema_names, hexprs1]
    simp [schemaMeasureFieldExprs, namedExprName, dtypes, List.map_map, Function.comp]
  · intro i f hf hnum hsummary
    have hdt : (dtypes df).get? i = some (f.name, f.dataType.simpleString) := by
      unfold dtypes
      rw [List.get?_map, hf]
      rfl
    have hE1f : ∀ p ∈ E1, p.1 ≠ f.name := by
      intro p hp
      rw [hE1] at hp
      obtain ⟨g, hg, rfl⟩ := List.mem_map.mp hp
      obtain ⟨hgl, hgp⟩ := List.mem_filter.mp hg
      intro hname
      rw [hnum g hgl hname] at hgp
      exact Bool.noConfusion hgp
    have hE2f : ∀ p ∈ E2, p.1 ≠ f.name := by
      intro p hp
      rw [hE2] at hp
      obtain ⟨g, hg, rfl⟩ := List.mem_map.mp hp
      obtain ⟨hgl, hgp⟩ := List.mem_filter.mp hg
      intro hname
      rw [hnum g hgl hname] at hgp
      exact Bool.noConfusion hgp
    refine ⟨row7, row8, ?_, ?_, ?_, ?_⟩
    · show (((((((s1.rows ++ [row2]) ++ [row3]) ++ [row4]) ++ [row5]) ++ [row6])
        ++ [row7]) ++ [row8]).get? 6 = some row7
      rw [hrow1]
      rfl
    · show (((((((s1.rows ++ [row2]) ++ [row3]) ++ [row4]) ++ [row5]) ++ [row6])
        ++ [row7]) ++ [row8]).get? 7 = some row8
      rw [hrow1]
      rfl
    · rw [hrow7, List.map_cons, List.map_cons, List.get?_cons_succ, List.get?_cons_succ,
        List.get?_map]
      simp only [describeFieldExprs]
      rw [List.get?_map, hdt]
      simp only [Option.map_some']
      rw [dictGet_describeValues_blank (dtypes df) "mean" E1 f.name hE1f hsummary]
      rfl
    · rw [hrow8, List.map_cons, List.map_cons, List.get?_cons_succ, List.get?_cons_succ,
        List.get?_map]
      simp only [describeFieldExprs]
      rw [List.get?_map, hdt]
      simp only [Option.map_some']
      rw [dictGet_describeValues_blank (dtypes df) "stddev" E2 f.name hE2f hsummary]
      rfl

/-- Witness for C2 at the concrete two-column, two-row dataframe
`dfIdName`. -/
theorem summarizeToDF_shape_witness :
    dfIdName.rows ≠ [] ∧
    (∃ t, summarizeToDF dfIdName = Except.ok t ∧
      t.rows.length = 8 ∧
      t.schema.fields.length = dfIdName.schema.fields.length + 2 ∧
      t.schema.fields.map StructField.name =
        "measure_" :: "summary_" :: dfIdName.schema.fields.map StructField.name ∧
      (∀ i f, dfIdName.schema.fields.get? i = some f →
        (∀ g ∈ dfIdName.schema.fields, g.name = f.name → g.dataType.isNumericType = false) →
        f.name ≠ "summary" →
        ∃ r6 r7, t.rows.get? 6 = some r6 ∧ t.rows.get? 7 = some r7 ∧
          r6.get? (i + 2) = some (some (SqlVal.vStr "")) ∧
          r7.get? (i + 2) = some (some (SqlVal.vStr "")))) :=
  ⟨by decide, summarizeToDF_shape dfIdName (by decide)⟩

/-- Witness for C10 at concrete inputs (empty measure name, real
dataframe). -/
theorem addMeasureToSummary_rejects_invalid_inputs_witness :
    ((some dfIdName : Option DataFrame) = none ∨ (some "" : Option String) = none ∨
      (some "" : Option String) = some "") ∧
    addMeasureToSummary (some "") (SqlExpr.litStr "") none (some dfIdName) 1 none =
      Except.error PyErr.assertionError :=
  ⟨Or.inr (Or.inr rfl),
   addMeasureToSummary_rejects_invalid_inputs (some "") (SqlExpr.litStr "") none
     (some dfIdName) 1 none (Or.inr (Or.inr rfl))⟩

end DbldatagenModel
